import Mathlib

/-!
Shallow embedding of `src/opencmiss/exporter/thumbnail.py`
(class `ArgonSceneExporter`) and verification of spec claims about it.

The Python module drives an offscreen Qt/Zinc rendering pipeline.  We model
the control flow of the exporter itself faithfully; the external collaborators
(the Argon document store, Qt, Zinc) are modelled as an environment of
boolean success/failure outcomes plus a small abstract document type, so
that every branch of the Python code is represented.
-/

namespace ThumbnailExporter

/-- Model of the external `ArgonDocument` collaborator (opencmiss.argon).
`content` is the serialized state a call to `serialize` would return;
`visInitialised` tracks whether visualisation contents are allocated.
`freeVisualisationContents` discards the renderable contents (so the
serialized state is lost), `initialiseVisualisationContents` allocates
fresh empty contents, and `deserialize` installs a serialized state. -/
structure ArgonDocument where
  content : String
  visInitialised : Bool
deriving DecidableEq, Repr

/-- `ArgonDocument()` — a freshly constructed, empty document. -/
def ArgonDocument.new : ArgonDocument := { content := "", visInitialised := false }

/-- `document.serialize()` — returns the serialized state of the document. -/
def ArgonDocument.serialize (d : ArgonDocument) : String := d.content

/-- `document.freeVisualisationContents()` — frees the visualisation
contents; the document no longer holds its serialized state. -/
def ArgonDocument.freeVisualisationContents (_d : ArgonDocument) : ArgonDocument :=
  { content := "", visInitialised := false }

/-- `document.initialiseVisualisationContents()` — allocates fresh empty
visualisation contents. -/
def ArgonDocument.initialiseVisualisationContents (d : ArgonDocument) : ArgonDocument :=
  { d with visInitialised := true }

/-- `document.deserialize(state)` — installs the given serialized state. -/
def ArgonDocument.deserialize (d : ArgonDocument) (state : String) : ArgonDocument :=
  { d with content := state }

/-- Time values (`initialTime` / `finishTime`).  The Python code only ever
tests these against `None`, never inspects the numeric value, so an
integer stands in for the float. -/
abbrev Time := Int

/-- The mutable attributes of an `ArgonSceneExporter` instance, as set up
by `__init__` and mutated by `load` / `set_parameters` / `export`. -/
structure ExporterState where
  outputTarget : String
  outputPrefix : String
  document : Option ArgonDocument
  filename : Option String
  initialTime : Option Time
  finishTime : Option Time
  numberOfTimeSteps : Nat
deriving DecidableEq, Repr

/-- `ArgonSceneExporter.__init__(output_target, output_prefix)`:
`self._output_target` becomes `.` when `output_target` is None, else the
given value;
`self._prefix = "ArgonSceneExporterThumbnail" if output_prefix is None
else output_prefix`, remaining attributes `None` / `10`. -/
def ArgonSceneExporter.init (output_target output_prefix : Option String) :
    ExporterState :=
  { outputTarget := output_target.getD "."
    outputPrefix := output_prefix.getD "ArgonSceneExporterThumbnail"
    document := none
    filename := none
    initialTime := none
    finishTime := none
    numberOfTimeSteps := 10 }

/-- Process-wide state visible to the exporter: the current working
directory (`os.getcwd` / `os.chdir`) and whether a `QGuiApplication`
instance exists (`QtGui.QGuiApplication.instance()`). -/
structure ProcState where
  cwd : String
  appInstance : Bool
deriving DecidableEq, Repr

/-- `os.path.join(a, b)` for a relative second component. -/
def joinPath (a b : String) : String :=
  if a = "" then b
  else if a.data.getLast? = some '/' then a ++ b
  else a ++ "/" ++ b

/-- `os.path.dirname(f)`: everything before the last `/`, or `""` when
there is no separator (plain relative paths; the root edge case `/a` is
not exercised by this module). -/
def dirname (f : String) : String :=
  match (f.data.reverse.dropWhile (fun c => c ≠ '/')) with
  | [] => ""
  | _ :: rest => String.mk rest.reverse

/-- `os.chdir(path)`: the new working directory, resolving a relative
path against the current one (the directory is assumed to exist). -/
def chdirResolve (cwd path : String) : String :=
  if path.data.head? = some '/' then path else joinPath cwd path

/-- Exceptions that can propagate out of the exporter methods. -/
inductive PyError where
  /-- `OpenCMISSExportThumbnailError` raised when PySide2 is absent. -/
  | exportThumbnailError
  /-- `NotImplementedError` raised by the time-varying guard. -/
  | notImplementedError
  /-- Any other exception escaping the rendering section (Zinc / document
  access failures); the `except ImportError` clause does not catch it. -/
  | renderException
deriving DecidableEq, Repr

/-- Outcome of a Python call: normal return or a propagating exception. -/
inductive PyResult (α : Type) where
  | ok (a : α)
  | raised (e : PyError)
deriving DecidableEq, Repr

/-- Environment of `load`: outcomes of the external operations it invokes.
`openOk`: `open(filename).read()` succeeds, yielding `fileContents`;
`deserializeOk`: `document.deserialize(state)` succeeds (deserialization
failures — `ArgonError`, `IOError`, `ValueError`, anything else — are all
caught by `load` and only differ in the log message). -/
structure LoadEnv where
  openOk : Bool
  fileContents : String
  deserializeOk : Bool
deriving DecidableEq, Repr

/-- Result of `load`: return value, exporter state, process state, and
whether an error was logged via `ArgonLogger`. -/
structure LoadResult where
  ret : Bool
  state : ExporterState
  proc : ProcState
  loggedError : Bool
deriving DecidableEq, Repr

/-- `ArgonSceneExporter.load(filename)` (thumbnail.py lines 37-64).
Returns `False` immediately on `None`; otherwise reads the file, saves
`os.getcwd()`, `os.chdir(os.path.dirname(filename))`, builds and
deserializes a fresh document, restores the working directory and returns
`True`.  All exceptions are caught and logged, returning `False`; note the
code has no `finally`, so a failure after the `os.chdir` leaves the
working directory changed. -/
def load (env : LoadEnv) (filename : Option String) (s : ExporterState)
    (p : ProcState) : LoadResult :=
  match filename with
  | none => { ret := false, state := s, proc := p, loggedError := false }
  | some fn =>
    if env.openOk then
      let current_wd := p.cwd
      let path := dirname fn
      let p1 : ProcState := { p with cwd := chdirResolve p.cwd path }
      let d := ArgonDocument.new.initialiseVisualisationContents
      if env.deserializeOk then
        let d1 := d.deserialize env.fileContents
        { ret := true
          state := { s with document := some d1 }
          proc := { p1 with cwd := current_wd }
          loggedError := false }
      else
        { ret := false
          state := { s with document := some d }
          proc := p1
          loggedError := true }
    else
      { ret := false, state := s, proc := p, loggedError := true }

/-- `ArgonSceneExporter.set_parameters(parameters)`. -/
def set_parameters (s : ExporterState) (numberOfTimeSteps : Nat)
    (initialTime finishTime : Option Time) (outputPrefix : String) : ExporterState :=
  { s with numberOfTimeSteps := numberOfTimeSteps
           initialTime := initialTime
           finishTime := finishTime
           outputPrefix := outputPrefix }

/-- Environment of `export_thumbnail`: outcomes of the Qt / Zinc
operations it invokes.
`pysideAvailable`: the `from PySide2 import ...` lines succeed;
`surfaceValid`: `off_screen.isValid()` after `off_screen.create()`;
`contextCreates`: `context.create()`;
`sceneviewerOk`: the scene-viewer setup before the time-varying guard
(lines 118-121: `getZincContext`, `getSceneviewermodule`,
`createSceneviewer`, `setViewportSize`) raises no exception;
`renderOk`: the section after the guard (lines 126-137: view parameters,
camera setup, `setScene`, `renderScene`, `toImage`, `save`) raises no
exception. -/
structure RenderEnv where
  pysideAvailable : Bool
  surfaceValid : Bool
  contextCreates : Bool
  sceneviewerOk : Bool
  renderOk : Bool
deriving DecidableEq, Repr

/-- The format of the framebuffer object constructed at lines 112-115. -/
structure FboFormat where
  width : Nat
  height : Nat
  samples : Nat
  combinedDepthStencil : Bool
deriving DecidableEq, Repr

/-- Observable trace of one `export_thumbnail` call.
`appCreated`: a `QGuiApplication` was constructed by this call;
`fbo`: the framebuffer object created and bound by this call, if any,
with its format; `fboReleased`: `fbo.release()` ran;
`filesWritten`: paths passed to `image.save` (the code ignores the
boolean result of `save`, so this records the write attempt). -/
structure RenderTrace where
  appCreated : Bool
  fbo : Option FboFormat
  fboReleased : Bool
  filesWritten : List String
deriving DecidableEq, Repr

/-- Result of `export_thumbnail`: call outcome, process state, trace. -/
structure RenderResult where
  result : PyResult Unit
  proc : ProcState
  trace : RenderTrace
deriving DecidableEq, Repr

/-- `ArgonSceneExporter.export_thumbnail()` (thumbnail.py lines 91-141).
The whole body is wrapped in `try ... except ImportError`, which rewraps
a failed PySide2 import as `OpenCMISSExportThumbnailError`; every other
exception propagates.  If a `QGuiApplication` instance does not exist one
is created.  An invalid offscreen surface, or a context that fails to
create, falls through the `if` with a plain return.  Otherwise a 512x512
framebuffer object with 4 samples and a combined depth-stencil attachment
is created and bound; the scene viewer is set up; if both `_initialTime`
and `_finishTime` are non-`None` a `NotImplementedError` is raised (with
the fbo still bound); otherwise the scene is rendered, the image saved to
`os.path.join` of `self._output_target` and `self._prefix` followed by
`_thumbnail.jpeg`
and the fbo released. -/
def export_thumbnail (env : RenderEnv) (s : ExporterState) (p : ProcState) :
    RenderResult :=
  if env.pysideAvailable then
    let appCreated := !p.appInstance
    let p1 : ProcState := { p with appInstance := true }
    if env.surfaceValid then
      if env.contextCreates then
        let fboFormat : FboFormat :=
          { width := 512, height := 512, samples := 4, combinedDepthStencil := true }
        if env.sceneviewerOk then
          if s.initialTime.isSome && s.finishTime.isSome then
            { result := .raised .notImplementedError
              proc := p1
              trace := { appCreated := appCreated, fbo := some fboFormat
                         fboReleased := false, filesWritten := [] } }
          else
            if env.renderOk then
              { result := .ok ()
                proc := p1
                trace := { appCreated := appCreated, fbo := some fboFormat
                           fboReleased := true
                           filesWritten :=
                             [joinPath s.outputTarget (s.outputPrefix ++ "_thumbnail.jpeg")] } }
            else
              { result := .raised .renderException
                proc := p1
                trace := { appCreated := appCreated, fbo := some fboFormat
                           fboReleased := false, filesWritten := [] } }
        else
          { result := .raised .renderException
            proc := p1
            trace := { appCreated := appCreated, fbo := some fboFormat
                       fboReleased := false, filesWritten := [] } }
      else
        { result := .ok ()
          proc := p1
          trace := { appCreated := appCreated, fbo := none
                     fboReleased := false, filesWritten := [] } }
    else
      { result := .ok ()
        proc := p1
        trace := { appCreated := appCreated, fbo := none
                   fboReleased := false, filesWritten := [] } }
  else
    { result := .raised .exportThumbnailError
      proc := p
      trace := { appCreated := false, fbo := none
                 fboReleased := false, filesWritten := [] } }

/-- Result of `export`: call outcome, exporter state as passed into
`export_thumbnail`, process state, the result of the internal `load` call
when one was made, and the rendering trace. -/
structure ExportResult where
  result : PyResult Unit
  state : ExporterState
  proc : ProcState
  loadResult : Option Bool
  trace : RenderTrace
deriving DecidableEq, Repr

/-- `ArgonSceneExporter.export(output_target=None)` (thumbnail.py lines
75-89).  Optionally overrides `_output_target`.  If no document is set, a
fresh one is created and initialised and `load(self._filename)` is called
— its return value is ignored.  Otherwise the document is serialized, its
visualisation contents freed and re-initialised, and the serialized state
deserialized back.  In both cases `export_thumbnail` is then invoked. -/
def «export» (lenv : LoadEnv) (renv : RenderEnv) (output_target : Option String)
    (s : ExporterState) (p : ProcState) : ExportResult :=
  let s0 := match output_target with
    | some t => { s with outputTarget := t }
    | none => s
  match s0.document with
  | none =>
    let s1 := { s0 with
      document := some ArgonDocument.new.initialiseVisualisationContents }
    let lr := load lenv s1.filename s1 p
    let rr := export_thumbnail renv lr.state lr.proc
    { result := rr.result, state := lr.state, proc := rr.proc
      loadResult := some lr.ret, trace := rr.trace }
  | some d =>
    let state := d.serialize
    let d1 := (d.freeVisualisationContents.initialiseVisualisationContents).deserialize state
    let s1 := { s0 with document := some d1 }
    let rr := export_thumbnail renv s1 p
    { result := rr.result, state := s1, proc := rr.proc
      loadResult := none, trace := rr.trace }

/-- `ArgonSceneExporter.set_document(document)`. -/
def set_document (s : ExporterState) (document : ArgonDocument) : ExporterState :=
  { s with document := some document }

/-- `ArgonSceneExporter.set_filename(filename)`. -/
def set_filename (s : ExporterState) (filename : String) : ExporterState :=
  { s with filename := some filename }

/-! Concrete fixtures used by counterexamples and witnesses. -/

/-- Environment in which every Qt / Zinc operation succeeds. -/
def envAllOk : RenderEnv :=
  { pysideAvailable := true, surfaceValid := true, contextCreates := true
    sceneviewerOk := true, renderOk := true }

/-- Environment in which the offscreen surface is invalid. -/
def envNoSurface : RenderEnv :=
  { envAllOk with surfaceValid := false }

/-- Environment in which PySide2 is not installed. -/
def envNoPySide : RenderEnv :=
  { envAllOk with pysideAvailable := false }

/-- Load environment where the file opens but deserialization fails. -/
def loadEnvBadDeserialize : LoadEnv :=
  { openOk := true, fileContents := "doc", deserializeOk := false }

/-- Load environment where every external operation succeeds. -/
def loadEnvOk : LoadEnv :=
  { openOk := true, fileContents := "doc", deserializeOk := true }

/-- Load environment where the file cannot be opened. -/
def loadEnvNoFile : LoadEnv :=
  { openOk := false, fileContents := "", deserializeOk := true }

/-- A freshly constructed exporter (`ArgonSceneExporter()`). -/
def exporterDefault : ExporterState := ArgonSceneExporter.init none none

/-- A freshly constructed exporter with both time bounds set. -/
def exporterBothTimes : ExporterState :=
  set_parameters exporterDefault 10 (some 0) (some 1) "scene"

/-- A sample loaded document. -/
def sampleDoc : ArgonDocument := { content := "argon-doc", visInitialised := true }

/-- An exporter holding `sampleDoc`. -/
def exporterWithDoc : ExporterState := set_document exporterDefault sampleDoc

/-- An exporter holding `sampleDoc` with both time bounds set. -/
def exporterWithDocBothTimes : ExporterState := set_document exporterBothTimes sampleDoc

/-- A process state with working directory `/home/user` and no
`QGuiApplication` instance. -/
def procHome : ProcState := { cwd := "/home/user", appInstance := false }

/-! Shared helper lemmas. -/

/-- After any `export_thumbnail` call with PySide2 available, a
`QGuiApplication` instance exists. -/
theorem export_thumbnail_appInstance (env : RenderEnv) (s : ExporterState)
    (p : ProcState) (h : env.pysideAvailable = true) :
    (export_thumbnail env s p).proc.appInstance = true := by
  rcases env with ⟨ps, sv, cc, so, ro⟩
  cases sv <;> cases cc <;> cases so <;> cases ro <;>
    rcases hti : s.initialTime with _ | ti <;> rcases htf : s.finishTime with _ | tf <;>
      simp_all [export_thumbnail]

/-- An `export_thumbnail` call with PySide2 available constructs a
`QGuiApplication` exactly when none existed before. -/
theorem export_thumbnail_appCreated (env : RenderEnv) (s : ExporterState)
    (p : ProcState) (h : env.pysideAvailable = true) :
    (export_thumbnail env s p).trace.appCreated = !p.appInstance := by
  rcases env with ⟨ps, sv, cc, so, ro⟩
  cases sv <;> cases cc <;> cases so <;> cases ro <;>
    rcases hti : s.initialTime with _ | ti <;> rcases htf : s.finishTime with _ | tf <;>
      simp_all [export_thumbnail]

/-! Claim theorems. -/

/-- C1 counterexample: a call with both time bounds non-null on a
platform whose offscreen surface is invalid returns normally — it does
not fail with the unsupported-feature error. -/
theorem C1_counterexample :
    exporterBothTimes.initialTime.isSome = true ∧
    exporterBothTimes.finishTime.isSome = true ∧
    (export_thumbnail envNoSurface exporterBothTimes procHome).result
      = PyResult.ok () := by
  refine ⟨rfl, rfl, rfl⟩

/-- C1 (amended): whenever `export_thumbnail` is called with both
`_initialTime` and `_finishTime` non-null and the pipeline reaches the
scene-viewer stage (PySide2 present, surface valid, context created,
viewer setup succeeded), the call fails with `NotImplementedError` for
time-varying export and no output image file is written by that call. -/
theorem C1_time_varying_guard (env : RenderEnv) (s : ExporterState) (p : ProcState)
    (hps : env.pysideAvailable = true) (hsv : env.surfaceValid = true)
    (hcc : env.contextCreates = true) (hso : env.sceneviewerOk = true)
    (hi : s.initialTime.isSome = true) (hf : s.finishTime.isSome = true) :
    (export_thumbnail env s p).result = PyResult.raised PyError.notImplementedError ∧
    (export_thumbnail env s p).trace.filesWritten = [] := by
  constructor <;> simp [export_thumbnail, hps, hsv, hcc, hso, hi, hf]

/-- Witness for C1_time_varying_guard at a concrete input. -/
theorem C1_time_varying_guard_witness :
    (export_thumbnail envAllOk exporterBothTimes procHome).result
        = PyResult.raised PyError.notImplementedError ∧
    (export_thumbnail envAllOk exporterBothTimes procHome).trace.filesWritten = [] :=
  C1_time_varying_guard envAllOk exporterBothTimes procHome rfl rfl rfl rfl rfl rfl

/-- C2 counterexample: a deserialization failure after the directory
change makes `load` return `False` with the process working directory
left at `/home/user/docs` instead of the original `/home/user`. -/
theorem C2_counterexample :
    (load loadEnvBadDeserialize (some "docs/model.argon") exporterDefault procHome).ret
        = false ∧
    (load loadEnvBadDeserialize (some "docs/model.argon") exporterDefault procHome).proc.cwd
        = "/home/user/docs" := by
  refine ⟨rfl, rfl⟩

/-- C2 (amended): `load` restores the working directory when it returns
`True`, and leaves it untouched when it fails before the directory change
(filename `None`, or the file cannot be read); but when deserialization
fails after the change, the working directory remains at the directory of
the named file. -/
theorem C2_load_working_directory (env : LoadEnv) (filename : Option String)
    (s : ExporterState) (p : ProcState) :
    ((load env filename s p).ret = true → (load env filename s p).proc.cwd = p.cwd) ∧
    (filename = none → (load env filename s p).proc.cwd = p.cwd) ∧
    (env.openOk = false → (load env filename s p).proc.cwd = p.cwd) ∧
    (∀ fn, filename = some fn → env.openOk = true → env.deserializeOk = false →
      (load env filename s p).proc.cwd = chdirResolve p.cwd (dirname fn)) := by
  rcases env with ⟨op, fc, de⟩
  cases filename <;> cases op <;> cases de <;> simp_all [load]

/-- Witness for C2_load_working_directory at a concrete input. -/
theorem C2_load_working_directory_witness :
    (load loadEnvBadDeserialize (some "docs/model.argon") exporterDefault procHome).proc.cwd
      = chdirResolve procHome.cwd (dirname "docs/model.argon") :=
  (C2_load_working_directory loadEnvBadDeserialize (some "docs/model.argon")
    exporterDefault procHome).2.2.2 "docs/model.argon" rfl rfl rfl

/-- C3 counterexample: with a loaded document and both time bounds set,
the scene-viewer setup at lines 118-121 succeeds and the guard at line
123 raises; the framebuffer object has been created and bound but
`release` is not called before the exception propagates. -/
theorem C3_counterexample :
    (export_thumbnail envAllOk exporterWithDocBothTimes procHome).result
        = PyResult.raised PyError.notImplementedError ∧
    (export_thumbnail envAllOk exporterWithDocBothTimes procHome).trace.fbo.isSome
        = true ∧
    (export_thumbnail envAllOk exporterWithDocBothTimes procHome).trace.fboReleased
        = false := by
  refine ⟨rfl, rfl, rfl⟩

/-- C3 (amended): `fbo.release()` runs exactly on the normal-completion
path — the framebuffer object is released iff one was created and the
call returns without an exception; on the time-varying rejection and on
any render error the exception propagates without the release. -/
theorem C3_fbo_released_iff_success (env : RenderEnv) (s : ExporterState)
    (p : ProcState) :
    (export_thumbnail env s p).trace.fboReleased = true ↔
      ((export_thumbnail env s p).trace.fbo.isSome = true ∧
       (export_thumbnail env s p).result = PyResult.ok ()) := by
  rcases env with ⟨ps, sv, cc, so, ro⟩
  cases ps <;> cases sv <;> cases cc <;> cases so <;> cases ro <;>
    rcases hti : s.initialTime with _ | ti <;> rcases htf : s.finishTime with _ | tf <;>
      simp_all [export_thumbnail]

/-- Witness for C3_fbo_released_iff_success at a concrete input. -/
theorem C3_fbo_released_iff_success_witness :
    (export_thumbnail envAllOk exporterWithDoc procHome).trace.fboReleased = true :=
  (C3_fbo_released_iff_success envAllOk exporterWithDoc procHome).mpr ⟨rfl, rfl⟩

/-- C4 counterexample: with no document and no filename set, the internal
`load` fails, yet the rendering pipeline still runs — the framebuffer
object is created and an output file is written. -/
theorem C4_counterexample :
    («export» loadEnvOk envAllOk none exporterDefault procHome).loadResult
        = some false ∧
    («export» loadEnvOk envAllOk none exporterDefault procHome).trace.fbo.isSome
        = true ∧
    («export» loadEnvOk envAllOk none exporterDefault procHome).trace.filesWritten
        ≠ [] := by
  refine ⟨rfl, rfl, by decide⟩

/-- C4 (amended): `export` ignores the result of its internal `load`
call: with no document set and an unreadable file, `load` reports failure
but `export_thumbnail` is still invoked and its rendering pipeline is
entered (the framebuffer object is created) whenever the toolkit, surface
and context are available. -/
theorem C4_export_ignores_load_failure (lenv : LoadEnv) (renv : RenderEnv)
    (output_target : Option String) (s : ExporterState) (p : ProcState)
    (hdoc : s.document = none) (hopen : lenv.openOk = false)
    (hps : renv.pysideAvailable = true) (hsv : renv.surfaceValid = true)
    (hcc : renv.contextCreates = true) :
    («export» lenv renv output_target s p).loadResult = some false ∧
    («export» lenv renv output_target s p).trace.fbo.isSome = true := by
  rcases renv with ⟨ps, sv, cc, so, ro⟩
  rcases lenv with ⟨op, fc, de⟩
  cases output_target <;> rcases hfn : s.filename with _ | fn <;>
    cases so <;> cases ro <;> cases de <;>
      rcases hti : s.initialTime with _ | ti <;> rcases htf : s.finishTime with _ | tf <;>
        simp_all [«export», load, export_thumbnail, hdoc]

/-- Witness for C4_export_ignores_load_failure at a concrete input. -/
theorem C4_export_ignores_load_failure_witness :
    («export» loadEnvNoFile envAllOk none exporterDefault procHome).loadResult
        = some false ∧
    («export» loadEnvNoFile envAllOk none exporterDefault procHome).trace.fbo.isSome
        = true :=
  C4_export_ignores_load_failure loadEnvNoFile envAllOk none exporterDefault procHome
    rfl rfl rfl rfl rfl

/-- C5 counterexample: with PySide2 available but an invalid offscreen
surface, `export_thumbnail` returns normally — no surface-unavailable
error is raised — and produces no output. -/
theorem C5_counterexample :
    (export_thumbnail envNoSurface exporterDefault procHome).result = PyResult.ok () ∧
    (export_thumbnail envNoSurface exporterDefault procHome).trace.filesWritten = [] ∧
    (export_thumbnail envNoSurface exporterDefault procHome).trace.fbo = none := by
  refine ⟨rfl, rfl, rfl⟩

/-- C5 (amended): with PySide2 available, an invalid offscreen surface or
a context that fails to create makes `export_thumbnail` skip the whole
rendering pipeline and return normally: no error is raised, no
framebuffer object is created and no output is produced. -/
theorem C5_surface_context_failures_silent (env : RenderEnv) (s : ExporterState)
    (p : ProcState) (hps : env.pysideAvailable = true)
    (h : env.surfaceValid = false ∨ env.contextCreates = false) :
    (export_thumbnail env s p).result = PyResult.ok () ∧
    (export_thumbnail env s p).trace.fbo = none ∧
    (export_thumbnail env s p).trace.filesWritten = [] := by
  rcases env with ⟨ps, sv, cc, so, ro⟩
  cases ps <;> cases sv <;> cases cc <;> cases so <;> cases ro <;>
    simp_all [export_thumbnail]

/-- Witness for C5_surface_context_failures_silent at a concrete input. -/
theorem C5_surface_context_failures_silent_witness :
    (export_thumbnail envNoSurface exporterDefault procHome).result = PyResult.ok () ∧
    (export_thumbnail envNoSurface exporterDefault procHome).trace.fbo = none ∧
    (export_thumbnail envNoSurface exporterDefault procHome).trace.filesWritten = [] :=
  C5_surface_context_failures_silent envNoSurface exporterDefault procHome rfl
    (Or.inl rfl)

/-- C6: when PySide2 is unavailable at runtime, `export_thumbnail` raises
the typed `OpenCMISSExportThumbnailError` rather than letting the raw
`ImportError` escape. -/
theorem C6_missing_dependency_typed_error (env : RenderEnv) (s : ExporterState)
    (p : ProcState) (h : env.pysideAvailable = false) :
    (export_thumbnail env s p).result
      = PyResult.raised PyError.exportThumbnailError := by
  simp [export_thumbnail, h]

/-- Witness for C6_missing_dependency_typed_error at a concrete input. -/
theorem C6_missing_dependency_typed_error_witness :
    (export_thumbnail envNoPySide exporterDefault procHome).result
      = PyResult.raised PyError.exportThumbnailError :=
  C6_missing_dependency_typed_error envNoPySide exporterDefault procHome rfl

/-- C7: a successful `export_thumbnail` call writes exactly one file, at
`os.path.join` of the output target and the prefix followed by
`_thumbnail.jpeg`; the framebuffer target is 512x512 with 4 samples and a
combined depth-stencil attachment; and `__init__` defaults the output
target to `.` (the current working directory) when unset. -/
theorem C7_output_path_and_render_target (env : RenderEnv) (s : ExporterState)
    (p : ProcState) (f : FboFormat)
    (hok : (export_thumbnail env s p).result = PyResult.ok ())
    (hf : (export_thumbnail env s p).trace.fbo = some f) :
    (export_thumbnail env s p).trace.filesWritten
        = [joinPath s.outputTarget (s.outputPrefix ++ "_thumbnail.jpeg")] ∧
    f = { width := 512, height := 512, samples := 4, combinedDepthStencil := true } ∧
    (ArgonSceneExporter.init none none).outputTarget = "." := by
  refine ⟨?_, ?_, rfl⟩ <;>
  · rcases env with ⟨ps, sv, cc, so, ro⟩
    cases ps <;> cases sv <;> cases cc <;> cases so <;> cases ro <;>
      rcases hti : s.initialTime with _ | ti <;> rcases htf : s.finishTime with _ | tf <;>
        simp_all [export_thumbnail]

/-- Witness for C7_output_path_and_render_target at a concrete input. -/
theorem C7_output_path_and_render_target_witness :
    (export_thumbnail envAllOk exporterDefault procHome).trace.filesWritten
        = [joinPath exporterDefault.outputTarget
            (exporterDefault.outputPrefix ++ "_thumbnail.jpeg")] ∧
    ({ width := 512, height := 512, samples := 4, combinedDepthStencil := true }
        : FboFormat)
      = { width := 512, height := 512, samples := 4, combinedDepthStencil := true } ∧
    (ArgonSceneExporter.init none none).outputTarget = "." :=
  C7_output_path_and_render_target envAllOk exporterDefault procHome
    { width := 512, height := 512, samples := 4, combinedDepthStencil := true } rfl rfl

/-- C8: the `QGuiApplication` singleton is lazily initialized at most
once per process: a call constructs one exactly when none exists yet,
after the call an instance exists, and a second call in the same process
never constructs another. -/
theorem C8_app_singleton (env1 env2 : RenderEnv) (s1 s2 : ExporterState)
    (p : ProcState) (h1 : env1.pysideAvailable = true)
    (h2 : env2.pysideAvailable = true) :
    (export_thumbnail env1 s1 p).trace.appCreated = !p.appInstance ∧
    (export_thumbnail env1 s1 p).proc.appInstance = true ∧
    (export_thumbnail env2 s2 (export_thumbnail env1 s1 p).proc).trace.appCreated
      = false := by
  refine ⟨export_thumbnail_appCreated env1 s1 p h1,
          export_thumbnail_appInstance env1 s1 p h1, ?_⟩
  rw [export_thumbnail_appCreated env2 s2 _ h2,
      export_thumbnail_appInstance env1 s1 p h1]
  rfl

/-- Witness for C8_app_singleton at a concrete input. -/
theorem C8_app_singleton_witness :
    (export_thumbnail envAllOk exporterDefault procHome).trace.appCreated
        = !procHome.appInstance ∧
    (export_thumbnail envAllOk exporterDefault procHome).proc.appInstance = true ∧
    (export_thumbnail envAllOk exporterBothTimes
        (export_thumbnail envAllOk exporterDefault procHome).proc).trace.appCreated
      = false :=
  C8_app_singleton envAllOk envAllOk exporterDefault exporterBothTimes procHome rfl rfl

/-- C9: `load(None)` returns `False` immediately: nothing is logged, the
exporter state is unchanged and the process working directory is
untouched. -/
theorem C9_load_none (env : LoadEnv) (s : ExporterState) (p : ProcState) :
    load env none s p = { ret := false, state := s, proc := p, loggedError := false } :=
  rfl

/-- C10: when a document is already set, `export` serializes it, frees
and re-initialises the visualisation contents, and deserializes the very
state it serialized, so the document handed to `export_thumbnail` has the
same serialized content as before the call, with visualisation contents
initialised. -/
theorem C10_document_state_roundtrip (lenv : LoadEnv) (renv : RenderEnv)
    (output_target : Option String) (s : ExporterState) (p : ProcState)
    (d : ArgonDocument) (hdoc : s.document = some d) :
    ((«export» lenv renv output_target s p).state.document).map ArgonDocument.serialize
        = some d.serialize ∧
    ((«export» lenv renv output_target s p).state.document).map
        ArgonDocument.visInitialised
      = some true := by
  cases output_target <;>
    simp_all [«export», ArgonDocument.serialize, ArgonDocument.deserialize,
      ArgonDocument.freeVisualisationContents,
      ArgonDocument.initialiseVisualisationContents]

/-- Witness for C10_document_state_roundtrip at a concrete input. -/
theorem C10_document_state_roundtrip_witness :
    ((«export» loadEnvOk envAllOk none exporterWithDoc procHome).state.document).map
        ArgonDocument.serialize
      = some sampleDoc.serialize ∧
    ((«export» loadEnvOk envAllOk none exporterWithDoc procHome).state.document).map
        ArgonDocument.visInitialised
      = some true :=
  C10_document_state_roundtrip loadEnvOk envAllOk none exporterWithDoc procHome
    sampleDoc rfl

end ThumbnailExporter
